import Mathlib

/-!
Shallow embedding of the weather plugin (`src/python/weather/app.py`).

The plugin fetches weather data over a host-provided HTTP transport,
unwraps a two-layer outcome type, streams the response body in bounded
chunks, maps the JSON payload to a typed response and serializes it
(or an error) back to JSON text.

Modelling notes:
* JSON values are an inductive `Json`; numbers are modelled as rationals
  (the code performs no arithmetic on them, only extraction and
  re-serialization, and the int/float textual distinction is abstracted
  in `numRepr`).
* Python exceptions are `Exc`: `keyError` (a `KeyError`, whose `str` is
  the repr of the key) and `generic` (every other exception, carried by
  its message).  Type errors raised by subscripting / iterating /
  `.get`-ing values of the wrong shape are `generic` with a fixed
  representative message.
* The host transport is a `World`: the resolved outcome of
  `outgoing_handler.handle` + `poll` + `response.get()` for a given URL,
  plus the behavior of `json.loads(body.decode("utf-8"))` on the raw
  body bytes (the Python standard library is external to the repository,
  so parsing is an arbitrary function producing either a `Json` value or
  an error message).
* Functions whose Python counterpart can block forever (an unterminated
  body stream) return `Option`; `none` marks divergence.
-/

namespace Weather

/-- JSON values, as produced by `json.loads` / consumed by `json.dumps`. -/
inductive Json where
  | null : Json
  | bool (b : Bool) : Json
  | num (q : ℚ) : Json
  | str (s : String) : Json
  | arr (elements : List Json) : Json
  | obj (entries : List (String × Json)) : Json

/-- Python exceptions relevant to the plugin: `KeyError(key)` versus any
other exception carried by its message. -/
inductive Exc where
  | keyError (key : String) : Exc
  | generic (msg : String) : Exc
deriving DecidableEq

/-- `str(e)` for an exception: for `KeyError` Python renders the repr of
the key (`'temp'`); for other exceptions the message itself. -/
def Exc.message : Exc → String
  | .keyError k => "'" ++ k ++ "'"
  | .generic m => m

/-- Dictionary lookup on a JSON object (first binding wins; parsed
Python dicts have unique keys).  `none` on a non-object or missing key. -/
def jlookup : Json → String → Option Json
  | .obj kvs, k => (kvs.find? (fun kv => decide (kv.1 = k))).map (fun kv => kv.2)
  | _, _ => none

/-- Python subscript `value[k]` with a string key: on a dict, the value
or `KeyError(k)`; on anything else a `TypeError` (generic). -/
def jsub : Json → String → Except Exc Json
  | .obj kvs, k =>
    match kvs.find? (fun kv => decide (kv.1 = k)) with
    | some kv => .ok kv.2
    | none => .error (.keyError k)
  | _, _ => .error (.generic "object is not subscriptable")

/-- Python `value.get(k)` (default `None`): on a dict, the optional
value; on anything else an `AttributeError` (generic). -/
def jget : Json → String → Except Exc (Option Json)
  | .obj kvs, k => .ok ((kvs.find? (fun kv => decide (kv.1 = k))).map (fun kv => kv.2))
  | _, _ => .error (.generic "object has no attribute get")

/-- Whether the character list `needle` starts the list `hay`. -/
def charsStart : List Char → List Char → Bool
  | [], _ => true
  | _ :: _, [] => false
  | a :: as, b :: bs => decide (a = b) && charsStart as bs

/-- Whether `needle` occurs as a contiguous run inside `hay`. -/
def charsOccur (needle : List Char) : List Char → Bool
  | [] => charsStart needle []
  | b :: bs => charsStart needle (b :: bs) || charsOccur needle bs

/-- Python membership `k in value`: key test on a dict, element test on
a list (string equality; a non-string element never equals `k`),
substring test on a string, `TypeError` otherwise. -/
def jsonContains : Json → String → Except Exc Bool
  | .obj kvs, k => .ok (kvs.any (fun kv => decide (kv.1 = k)))
  | .arr xs, k =>
    .ok (xs.any (fun x => match x with | .str s => decide (s = k) | _ => false))
  | .str s, k => .ok (charsOccur k.toList s.toList)
  | _, _ => .error (.generic "argument is not a container")

/-- Python iteration `for w in value`: keys of a dict, elements of a
list, characters of a string, `TypeError` otherwise. -/
def jsonIter : Json → Except Exc (List Json)
  | .obj kvs => .ok (kvs.map (fun kv => Json.str kv.1))
  | .arr xs => .ok xs
  | .str s => .ok (s.toList.map (fun c => Json.str (String.mk [c])))
  | _ => .error (.generic "object is not iterable")

/-- Whether a JSON value is an object (a Python dict). -/
def Json.isObj : Json → Bool
  | .obj _ => true
  | _ => false

/- ## Serialization (`json.dumps` with default separators) -/

/-- One lowercase hex digit. -/
def hexDigit (n : Nat) : Char :=
  if n < 10 then Char.ofNat (48 + n) else Char.ofNat (87 + n)

/-- Four-digit lowercase hex, for `\uXXXX` escapes. -/
def hex4 (n : Nat) : String :=
  String.mk [hexDigit (n / 4096 % 16), hexDigit (n / 256 % 16),
             hexDigit (n / 16 % 16), hexDigit (n % 16)]

/-- Escape one character as `json.dumps` (ensure_ascii) does.  Astral
code points (surrogate pairs) are abstracted to a single `\uXXXX`. -/
def escChar (c : Char) : String :=
  if c = '"' then "\\\""
  else if c = '\\' then "\\\\"
  else if c = '\n' then "\\n"
  else if c = '\t' then "\\t"
  else if c = '\r' then "\\r"
  else if c.toNat < 32 ∨ c.toNat > 126 then "\\u" ++ hex4 c.toNat
  else String.mk [c]

/-- Escape a string for inclusion in a JSON literal. -/
def escString (s : String) : String :=
  String.join (s.toList.map escChar)

/-- Textual form of a JSON number.  The source distinguishes int and
float renderings; numbers never occur in the texts the theorems compare,
so an integral rational is rendered with a trailing `.0` (the float
form, the common case for weather data) and others via `toString`. -/
def numRepr (q : ℚ) : String :=
  if q.den = 1 then toString q.num ++ ".0" else toString q

mutual

/-- `json.dumps` with the default separators `", "` and `": "`. -/
def dumps : Json → String
  | .null => "null"
  | .bool true => "true"
  | .bool false => "false"
  | .num q => numRepr q
  | .str s => "\"" ++ escString s ++ "\""
  | .arr xs => "[" ++ dumpsList xs ++ "]"
  | .obj kvs => "\x7b" ++ dumpsObj kvs ++ "\x7d"

/-- Comma-joined serialization of array elements. -/
def dumpsList : List Json → String
  | [] => ""
  | [x] => dumps x
  | x :: y :: rest => dumps x ++ ", " ++ dumpsList (y :: rest)

/-- Comma-joined serialization of object entries. -/
def dumpsObj : List (String × Json) → String
  | [] => ""
  | [(k, v)] => "\"" ++ escString k ++ "\": " ++ dumps v
  | (k, v) :: e :: rest =>
    "\"" ++ escString k ++ "\": " ++ dumps v ++ ", " ++ dumpsObj (e :: rest)

end

/- ## Transport layer (`make_http_request`, lines 58-132) -/

/-- One event observed by a `blocking_read(8192)` call on the body
stream: a chunk of bytes (possibly empty, the end-of-stream signal) or a
raised stream-level error. -/
inductive ReadEvent where
  | chunk (bytes : List Nat) : ReadEvent
  | streamError (msg : String) : ReadEvent
deriving DecidableEq

/-- A validated `IncomingResponse`: its HTTP status and the trace of its
body stream. -/
structure IncomingResponse where
  status : Nat
  bodyEvents : List ReadEvent
deriving DecidableEq

/-- The body-reading loop (lines 117-132): accumulate chunks until a
zero-length read; on a stream error return the accumulated chunks if the
chunk list is non-empty, else raise.  `none` models a stream that never
terminates (the blocking read blocks forever). -/
def readBodyAux : List ReadEvent → List (List Nat) → Option (Except Exc (List Nat))
  | [], _ => none
  | ReadEvent.chunk bs :: rest, chunks =>
    if bs.length = 0 then some (.ok chunks.flatten)
    else readBodyAux rest (chunks ++ [bs])
  | ReadEvent.streamError msg :: _, chunks =>
    if chunks = [] then
      some (.error (.generic ("Failed to read response body: " ++ msg)))
    else some (.ok chunks.flatten)

/-- Read the whole body of a response stream. -/
def readBody (events : List ReadEvent) : Option (Except Exc (List Nat)) :=
  readBodyAux events []

/-- The resolved value of `response.get()` after the poll: `None`, or a
two-layer result (outer transport layer wrapping the protocol layer).
Failure payloads are carried by their Python string rendering. -/
def TransportOutcome : Type :=
  Option (Except String (Except String IncomingResponse))

/-- `make_http_request` from the resolved transport outcome on (lines
87-132): unwrap the two result layers, validate the HTTP status, then
read the body.  Request construction (lines 63-84) is pure data assembly
and is captured by `requestUrl` below. -/
def make_http_request (outcome : TransportOutcome) : Option (Except Exc (List Nat)) :=
  match outcome with
  | none => some (.error (.generic "No response received"))
  | some (.error v) => some (.error (.generic ("Failed to get response: " ++ v)))
  | some (.ok (.error code)) =>
    some (.error (.generic ("Request failed with error code: " ++ code)))
  | some (.ok (.ok incoming_response)) =>
    if ¬(200 ≤ incoming_response.status ∧ incoming_response.status < 300) then
      some (.error (.generic
        ("HTTP error: status code " ++ toString incoming_response.status)))
    else
      readBody incoming_response.bodyEvents

/- ## Domain model (lines 15-55) -/

/-- The fixed endpoint authority (line 15). -/
def OPENWEATHER_ENDPOINT : String := "api.openweathermap.org"

/-- Declared timeout constant (line 16); never wired into the blocking
wait, mirrored for completeness. -/
def TIMEOUT_SECS : Nat := 10

/-- The `Unit` string-enum (lines 19-21). -/
inductive Unit where
  | metric : Unit
  | imperial : Unit
deriving DecidableEq

/-- The `.value` of the enum member. -/
def Unit.value : Unit → String
  | .metric => "metric"
  | .imperial => "imperial"

/-- `WeatherParams` (lines 24-27). -/
structure WeatherParams where
  location : String
  unit : Unit
deriving DecidableEq

/-- `WeatherResponse` (lines 30-39).  Python dataclass fields are not
type-checked at runtime, so extracted payload values stay `Json`. -/
structure WeatherResponse where
  location : Json
  temperature : Json
  feels_like_temperature : Json
  wind_speed : Option Json
  wind_degrees : Option Json
  humidity : Option Json
  unit : String
  weather_conditions : List Json

/-- `WeatherResponse.to_dict` (lines 41-55): five mandatory entries in
literal order, then each optional entry only when present.  The
`isinstance(self.unit, Unit)` guard on line 46 is always false here
because `unit` is constructed from `params.unit.value`, a plain string,
so the unit is emitted as-is. -/
def WeatherResponse.to_dict (r : WeatherResponse) : Json :=
  Json.obj
    ([("location", r.location),
      ("temperature", r.temperature),
      ("feels_like_temperature", r.feels_like_temperature),
      ("unit", Json.str r.unit),
      ("weather_conditions", Json.arr r.weather_conditions)]
     ++ (match r.wind_speed with
         | some v => [("wind_speed", v)]
         | none => [])
     ++ (match r.wind_degrees with
         | some v => [("wind_degrees", v)]
         | none => [])
     ++ (match r.humidity with
         | some v => [("humidity", v)]
         | none => []))

/- ## URL construction (`urllib.parse.quote` and line 141) -/

/-- UTF-8 bytes of a code point. -/
def utf8Bytes (n : Nat) : List Nat :=
  if n < 128 then [n]
  else if n < 2048 then [192 + n / 64, 128 + n % 64]
  else if n < 65536 then [224 + n / 4096, 128 + n / 64 % 64, 128 + n % 64]
  else [240 + n / 262144, 128 + n / 4096 % 64, 128 + n / 64 % 64, 128 + n % 64]

/-- One uppercase hex digit (percent-encoding uses uppercase). -/
def hexDigitU (n : Nat) : Char :=
  if n < 10 then Char.ofNat (48 + n) else Char.ofNat (55 + n)

/-- `%XX` encoding of one byte. -/
def pctByte (b : Nat) : String :=
  String.mk ['%', hexDigitU (b / 16 % 16), hexDigitU (b % 16)]

/-- Characters `urllib.parse.quote` leaves unescaped with the default
`safe="/"`. -/
def quoteSafe (c : Char) : Bool :=
  decide (('a' ≤ c ∧ c ≤ 'z') ∨ ('A' ≤ c ∧ c ≤ 'Z') ∨ ('0' ≤ c ∧ c ≤ '9') ∨
          c = '_' ∨ c = '.' ∨ c = '-' ∨ c = '~' ∨ c = '/')

/-- `urllib.parse.quote` with default arguments. -/
def quote (s : String) : String :=
  s.toList.foldr
    (fun c acc =>
      (if quoteSafe c then String.mk [c]
       else String.join ((utf8Bytes c.toNat).map pctByte)) ++ acc) ""

/-- The request URL built on line 141. -/
def requestUrl (api_key : String) (params : WeatherParams) : String :=
  "https://" ++ OPENWEATHER_ENDPOINT ++ "/data/2.5/weather?q=" ++
    quote params.location ++ "&appid=" ++ api_key ++ "&units=" ++ params.unit.value

/- ## Weather domain mapper (`get_weather`, lines 135-175) -/

/-- The list comprehension on lines 152-156: for each entry carrying a
`"description"` key, collect `w.get("description", "")`; errors raised
while testing or extracting propagate. -/
def collectDescriptions : List Json → Except Exc (List Json)
  | [] => .ok []
  | w :: rest => do
    let present ← jsonContains w "description"
    if present then do
      let d ← jget w "description"
      let ds ← collectDescriptions rest
      pure (d.getD (Json.str "") :: ds)
    else
      collectDescriptions rest

/-- The weather-conditions block (lines 150-156): `[]` unless the
payload has a `"weather"` key, else the collected descriptions of its
entries. -/
def weatherConditionsOf (weather_data : Json) : Except Exc (List Json) := do
  let hasWeather ← jsonContains weather_data "weather"
  if hasWeather then do
    let lst ← jsub weather_data "weather"
    let ws ← jsonIter lst
    collectDescriptions ws
  else
    pure []

/-- The payload-to-`WeatherResponse` mapping inside `get_weather`'s
`try` block (lines 150-168), with Python evaluation order: the
weather-conditions block first, then the constructor arguments top to
bottom.  Any raised exception is returned as `Except.error`. -/
def map_weather (weather_data : Json) (params : WeatherParams) :
    Except Exc WeatherResponse := do
  let weather_conditions ← weatherConditionsOf weather_data
  let locOpt ← jget weather_data "name"
  let temperature ← do
    let m ← jsub weather_data "main"
    jsub m "temp"
  let feels_like_temperature ← do
    let m ← jsub weather_data "main"
    jsub m "feels_like"
  let windOpt1 ← jget weather_data "wind"
  let wind_speed ← jget (windOpt1.getD (Json.obj [])) "speed"
  let windOpt2 ← jget weather_data "wind"
  let wind_degrees ← jget (windOpt2.getD (Json.obj [])) "deg"
  let mainOpt ← jget weather_data "main"
  let humidity ← jget (mainOpt.getD (Json.obj [])) "humidity"
  pure
    { location := locOpt.getD (Json.str ""),
      temperature := temperature,
      feels_like_temperature := feels_like_temperature,
      wind_speed := wind_speed,
      wind_degrees := wind_degrees,
      humidity := humidity,
      unit := params.unit.value,
      weather_conditions := weather_conditions }

/-- The environment and host behavior one call runs against: the
resolved transport outcome for each request URL, and the behavior of
`json.loads(body.decode("utf-8"))` on the raw body bytes (external
standard-library code, so an arbitrary function; its failures —
`UnicodeDecodeError`, `JSONDecodeError` — are carried as messages). -/
structure World where
  transport : String → TransportOutcome
  parse : List Nat → Except String Json

/-- `get_weather` (lines 135-175): build the URL, fetch, parse, map.
A `KeyError` escaping the mapping is re-raised as the missing-field
message (line 173); every other exception as the fetch-failure message
(line 175).  `none` models the blocking read never returning. -/
def get_weather (api_key : String) (params : WeatherParams) (w : World) :
    Option (Except Exc WeatherResponse) :=
  match make_http_request (w.transport (requestUrl api_key params)) with
  | none => none
  | some (.error e) =>
    some (.error (.generic ("Failed to fetch weather: " ++ e.message)))
  | some (.ok body) =>
    match w.parse body with
    | .error msg => some (.error (.generic ("Failed to fetch weather: " ++ msg)))
    | .ok weather_data =>
      match map_weather weather_data params with
      | .ok r => some (.ok r)
      | .error (.keyError k) =>
        some (.error (.generic ("Error parsing weather data: missing field '" ++ k ++ "'")))
      | .error e =>
        some (.error (.generic ("Failed to fetch weather: " ++ e.message)))

/- ## Entry point (`WitWorld.check_weather`, lines 179-213) -/

/-- The credential scan on lines 181-187: the value of the first
environment entry named `OPENWEATHER_API_KEY`, if any. -/
def lookupApiKey (env : List (String × String)) : Option String :=
  (env.find? (fun v => decide (v.1 = "OPENWEATHER_API_KEY"))).map (fun v => v.2)

/-- ASCII lower-casing of one character (`str.lower()`; the plugin only
compares against the ASCII word `"imperial"`). -/
def charLower (c : Char) : Char :=
  if 'A' ≤ c ∧ c ≤ 'Z' then Char.ofNat (c.toNat + 32) else c

/-- Python `unit.lower()`. -/
def strLower (s : String) : String :=
  String.mk (s.toList.map charLower)

/-- The unit parsing on lines 195-199: lower-case, `"imperial"` maps to
`Unit.IMPERIAL`, anything else defaults to `Unit.METRIC`. -/
def parseUnit (unit : String) : Unit :=
  if strLower unit = "imperial" then Unit.imperial else Unit.metric

/-- The JSON value `check_weather` hands to `json.dumps`: the
configuration-error dict, the success dict, or the fetch-error dict.
`if not api_key` treats both an absent and an empty credential as
missing.  `none` models a call that never returns. -/
def check_weather_value (env : List (String × String)) (w : World)
    (location unit : String) : Option Json :=
  match lookupApiKey env with
  | none =>
    some (Json.obj [("error", Json.str "OPENWEATHER_API_KEY environment variable not set")])
  | some k =>
    if k = "" then
      some (Json.obj [("error", Json.str "OPENWEATHER_API_KEY environment variable not set")])
    else
      match get_weather k { location := location, unit := parseUnit unit } w with
      | none => none
      | some (.ok weather) => some weather.to_dict
      | some (.error e) =>
        some (Json.obj [("error", Json.str ("Failed to fetch weather: " ++ e.message))])

/-- `WitWorld.check_weather` (lines 179-213): the serialized form of
`check_weather_value`. -/
def check_weather (env : List (String × String)) (w : World)
    (location unit : String) : Option String :=
  (check_weather_value env w location unit).map dumps

/- ## Concrete instances used by the witnesses -/

/-- An environment carrying the credential. -/
def env0 : List (String × String) := [("OPENWEATHER_API_KEY", "testkey")]

/-- A minimal successful payload: only `main.temp` and `main.feels_like`. -/
def payload0 : Json :=
  Json.obj [("main", Json.obj [("temp", Json.num 21), ("feels_like", Json.num (41/2))])]

/-- A world whose transport answers every request with status 200 and a
two-event body stream, and whose parser yields `payload0`. -/
def world0 : World :=
  { transport := fun _ => some (Except.ok (Except.ok
      { status := 200, bodyEvents := [ReadEvent.chunk [123, 125], ReadEvent.chunk []] })),
    parse := fun _ => Except.ok payload0 }

/-- A world whose transport never produces an outcome and whose parser
always fails. -/
def worldFail : World :=
  { transport := fun _ => none, parse := fun _ => Except.error "boom" }

/-- The response `map_weather` builds from `payload0`. -/
def resp0 : WeatherResponse :=
  { location := Json.str "", temperature := Json.num 21,
    feels_like_temperature := Json.num (41/2), wind_speed := none,
    wind_degrees := none, humidity := none, unit := "metric",
    weather_conditions := [] }

/- ## Helper lemmas -/

/-- Pushing a run of non-empty chunk events through the reading loop
accumulates them onto the chunk list. -/
lemma readBodyAux_chunks (pre : List (List Nat)) :
    ∀ (rest : List ReadEvent) (chunks : List (List Nat)),
      (∀ c ∈ pre, c ≠ []) →
      readBodyAux (pre.map ReadEvent.chunk ++ rest) chunks =
        readBodyAux rest (chunks ++ pre) := by
  induction pre with
  | nil => intro rest chunks _; simp
  | cons c pre ih =>
    intro rest chunks h
    have hc : c ≠ [] := h c (List.mem_cons_self c pre)
    have hlen : ¬ c.length = 0 := by
      simpa [List.length_eq_zero] using hc
    simp only [List.map_cons, List.cons_append, readBodyAux, if_neg hlen, List.append_eq]
    rw [ih rest (chunks ++ [c]) (fun x hx => h x (List.mem_cons_of_mem _ hx))]
    simp

/- ## Claim theorems -/

/-- Claim C5: for every body stream yielding a finite sequence of
non-empty chunks (each a bounded read of at most 8192 bytes) followed by
a zero-length read, the reader stops at the zero-length read and returns
the concatenation of all prior chunks in arrival order; events after the
terminator are never read. -/
theorem body_read_to_eof (pre : List (List Nat)) (rest : List ReadEvent)
    (h : ∀ c ∈ pre, c ≠ [] ∧ c.length ≤ 8192) :
    readBody (pre.map ReadEvent.chunk ++ ReadEvent.chunk [] :: rest) =
      some (Except.ok pre.flatten) := by
  unfold readBody
  rw [readBodyAux_chunks pre _ _ (fun c hc => (h c hc).1)]
  simp [readBodyAux]

/-- Witness for C5: the chunk trace `[b"ab", b"cd", b""]` yields exactly
the body `b"abcd"`. -/
theorem body_read_to_eof_witness :
    (∀ c ∈ [[97, 98], [99, 100]], c ≠ ([] : List Nat) ∧ c.length ≤ 8192) ∧
    readBody ([[97, 98], [99, 100]].map ReadEvent.chunk ++ ReadEvent.chunk [] :: []) =
      some (Except.ok [97, 98, 99, 100]) :=
  ⟨by decide, body_read_to_eof [[97, 98], [99, 100]] [] (by decide)⟩

/-- Claim C3: a stream-level error raised after at least one non-empty
chunk has been accumulated makes the reader return the concatenation of
the chunks so far; an error with zero accumulated chunks fails with the
body-read error instead. -/
theorem body_read_partial_tolerance (pre : List (List Nat)) (m : String)
    (rest : List ReadEvent) (h : ∀ c ∈ pre, c ≠ []) :
    (pre ≠ [] →
      readBody (pre.map ReadEvent.chunk ++ ReadEvent.streamError m :: rest) =
        some (Except.ok pre.flatten)) ∧
    readBody (ReadEvent.streamError m :: rest) =
      some (Except.error (Exc.generic ("Failed to read response body: " ++ m))) := by
  constructor
  · intro hne
    unfold readBody
    rw [readBodyAux_chunks pre _ _ h]
    simp [readBodyAux, hne]
  · simp [readBody, readBodyAux]

/-- Witness for C3: the trace `[b"ab", <stream error>]` yields body
`b"ab"`, and the trace `[<stream error>]` fails with the body-read
error. -/
theorem body_read_partial_tolerance_witness :
    readBody ([[97, 98]].map ReadEvent.chunk ++ ReadEvent.streamError "boom" :: []) =
      some (Except.ok [97, 98]) ∧
    readBody [ReadEvent.streamError "boom"] =
      some (Except.error (Exc.generic "Failed to read response body: boom")) :=
  ⟨(body_read_partial_tolerance [[97, 98]] "boom" [] (by decide)).1 (by decide),
   (body_read_partial_tolerance [] "boom" [] (by decide)).2⟩

/-- Claim C2: on a validated `IncomingResponse` the status check accepts
exactly the statuses in `[200, 300)` (proceeding to the body read) and
fails with the HTTP-status error carrying the status code for every
other status. -/
theorem status_range_check (s : Nat) (ev : List ReadEvent) :
    (200 ≤ s ∧ s < 300 →
      make_http_request (some (Except.ok (Except.ok ⟨s, ev⟩))) = readBody ev) ∧
    (¬(200 ≤ s ∧ s < 300) →
      make_http_request (some (Except.ok (Except.ok ⟨s, ev⟩))) =
        some (Except.error (Exc.generic ("HTTP error: status code " ++ toString s)))) := by
  constructor
  · intro h
    simp [make_http_request, h]
  · intro h
    simp [make_http_request, h]

/-- Witness for C2: status 204 and 299 succeed; status 300 and 404 fail
with the status error. -/
theorem status_range_check_witness :
    make_http_request (some (Except.ok (Except.ok ⟨204, []⟩))) = readBody [] ∧
    make_http_request (some (Except.ok (Except.ok ⟨299, []⟩))) = readBody [] ∧
    make_http_request (some (Except.ok (Except.ok ⟨300, []⟩))) =
      some (Except.error (Exc.generic ("HTTP error: status code " ++ toString 300))) ∧
    make_http_request (some (Except.ok (Except.ok ⟨404, []⟩))) =
      some (Except.error (Exc.generic ("HTTP error: status code " ++ toString 404))) :=
  ⟨(status_range_check 204 []).1 (by decide),
   (status_range_check 299 []).1 (by decide),
   (status_range_check 300 []).2 (by decide),
   (status_range_check 404 []).2 (by decide)⟩

/-- Claim C9: the unwrapper settles outcomes in this order — missing
outcome, outer-layer error, inner-layer protocol error, and only then is
the HTTP status of the extracted response inspected; the three failure
results are constants that never read a status field. -/
theorem unwrap_order (v code : String) (resp : IncomingResponse) :
    make_http_request none = some (Except.error (Exc.generic "No response received")) ∧
    make_http_request (some (Except.error v)) =
      some (Except.error (Exc.generic ("Failed to get response: " ++ v))) ∧
    make_http_request (some (Except.ok (Except.error code))) =
      some (Except.error (Exc.generic ("Request failed with error code: " ++ code))) ∧
    make_http_request (some (Except.ok (Except.ok resp))) =
      (if ¬(200 ≤ resp.status ∧ resp.status < 300) then
        some (Except.error (Exc.generic ("HTTP error: status code " ++ toString resp.status)))
      else readBody resp.bodyEvents) :=
  ⟨rfl, rfl, rfl, rfl⟩

/-- Claim C4: with no `OPENWEATHER_API_KEY` entry in the environment,
`check_weather` returns exactly the configuration-error JSON string, and
the result is independent of the transport and parser (no network step
is consulted). -/
theorem missing_api_key_short_circuit (env : List (String × String))
    (w w' : World) (location unit : String) (h : lookupApiKey env = none) :
    check_weather env w location unit =
      some "\x7b\"error\": \"OPENWEATHER_API_KEY environment variable not set\"\x7d" ∧
    check_weather env w location unit = check_weather env w' location unit := by
  unfold check_weather check_weather_value
  rw [h]
  exact ⟨rfl, rfl⟩

/-- Witness for C4: the empty environment short-circuits identically
under a succeeding world and a failing world. -/
theorem missing_api_key_short_circuit_witness :
    check_weather [] world0 "Paris" "metric" =
      some "\x7b\"error\": \"OPENWEATHER_API_KEY environment variable not set\"\x7d" ∧
    check_weather [] world0 "Paris" "metric" = check_weather [] worldFail "Paris" "metric" :=
  missing_api_key_short_circuit [] world0 worldFail "Paris" "metric" rfl

/-- Claim C10: an `OPENWEATHER_API_KEY` entry bound to the empty string
is treated like an absent credential: the configuration-error JSON is
returned and the transport and parser are never consulted. -/
theorem empty_api_key_short_circuit (env : List (String × String))
    (w w' : World) (location unit : String) (h : lookupApiKey env = some "") :
    check_weather env w location unit =
      some "\x7b\"error\": \"OPENWEATHER_API_KEY environment variable not set\"\x7d" ∧
    check_weather env w location unit = check_weather env w' location unit := by
  unfold check_weather check_weather_value
  rw [h]
  exact ⟨rfl, rfl⟩

/-- Witness for C10: an environment binding the credential to `""`
short-circuits identically under a succeeding world and a failing
world. -/
theorem empty_api_key_short_circuit_witness :
    check_weather [("OPENWEATHER_API_KEY", "")] world0 "Paris" "metric" =
      some "\x7b\"error\": \"OPENWEATHER_API_KEY environment variable not set\"\x7d" ∧
    check_weather [("OPENWEATHER_API_KEY", "")] world0 "Paris" "metric" =
      check_weather [("OPENWEATHER_API_KEY", "")] worldFail "Paris" "metric" :=
  empty_api_key_short_circuit [("OPENWEATHER_API_KEY", "")] world0 worldFail
    "Paris" "metric" rfl

/-- Claim C8: a unit whose lower-casing is not `"imperial"` makes the
whole call behave as if `"metric"` had been requested (same request URL,
same response), with the effective enum `METRIC`; any casing of
`"imperial"` behaves as `"imperial"` with the effective enum
`IMPERIAL`. -/
theorem effective_unit_default (u : String) (env : List (String × String))
    (w : World) (loc : String) :
    (strLower u ≠ "imperial" →
      parseUnit u = Unit.metric ∧
      check_weather env w loc u = check_weather env w loc "metric") ∧
    (strLower u = "imperial" →
      parseUnit u = Unit.imperial ∧
      check_weather env w loc u = check_weather env w loc "imperial") := by
  have hm : parseUnit "metric" = Unit.metric := by decide
  have hi : parseUnit "imperial" = Unit.imperial := by decide
  constructor
  · intro h
    have hp : parseUnit u = Unit.metric := by
      unfold parseUnit
      rw [if_neg h]
    refine ⟨hp, ?_⟩
    unfold check_weather check_weather_value
    simp only [hp, hm]
  · intro h
    have hp : parseUnit u = Unit.imperial := by
      unfold parseUnit
      rw [if_pos h]
    refine ⟨hp, ?_⟩
    unfold check_weather check_weather_value
    simp only [hp, hi]

/-- Witness for C8: `"Kelvin"` is treated as metric, `"IMPERIAL"` as
imperial. -/
theorem effective_unit_default_witness :
    (parseUnit "Kelvin" = Unit.metric ∧
      check_weather env0 world0 "L" "Kelvin" = check_weather env0 world0 "L" "metric") ∧
    (parseUnit "IMPERIAL" = Unit.imperial ∧
      check_weather env0 world0 "L" "IMPERIAL" = check_weather env0 world0 "L" "imperial") :=
  ⟨(effective_unit_default "Kelvin" env0 world0 "L").1 (by decide),
   (effective_unit_default "IMPERIAL" env0 world0 "L").2 (by decide)⟩

/-- Serialization of a `WeatherResponse` is a JSON object with no
`"error"` key. -/
lemma to_dict_pairs (r : WeatherResponse) :
    ∃ kvs : List (String × Json),
      r.to_dict = Json.obj kvs ∧ jlookup (Json.obj kvs) "error" = none := by
  rcases r with ⟨l, t, f, ws, wd, hm, un, wc⟩
  cases ws <;> cases wd <;> cases hm <;> exact ⟨_, rfl, rfl⟩

/-- Every JSON value `check_weather` serializes is either the one-entry
error object or the serialization of a `WeatherResponse`. -/
lemma check_weather_value_shape (env : List (String × String)) (w : World)
    (loc u : String) (j : Json) (h : check_weather_value env w loc u = some j) :
    (∃ msg, j = Json.obj [("error", Json.str msg)]) ∨
    ∃ r : WeatherResponse, j = r.to_dict := by
  unfold check_weather_value at h
  split at h
  · exact Or.inl ⟨_, (Option.some.inj h).symm⟩
  · split at h
    · exact Or.inl ⟨_, (Option.some.inj h).symm⟩
    · split at h
      · cases h
      · exact Or.inr ⟨_, (Option.some.inj h).symm⟩
      · exact Or.inl ⟨_, (Option.some.inj h).symm⟩

/-- Claim C1: whenever `check_weather` returns, the returned string is
the serialization of a JSON object, and that object either is exactly
the one-entry error object mapping `"error"` to a string, or has no
`"error"` key at all (the success shape); no exception escapes — every
failure is already folded into the error object. -/
theorem check_weather_error_shape (env : List (String × String)) (w : World)
    (loc u s : String) (h : check_weather env w loc u = some s) :
    ∃ kvs : List (String × Json),
      s = dumps (Json.obj kvs) ∧
      ((∃ msg, kvs = [("error", Json.str msg)]) ∨
        jlookup (Json.obj kvs) "error" = none) := by
  unfold check_weather at h
  cases hv : check_weather_value env w loc u with
  | none => rw [hv] at h; cases h
  | some j =>
    rw [hv] at h
    have hs : dumps j = s := Option.some.inj h
    rcases check_weather_value_shape env w loc u j hv with ⟨msg, hj⟩ | ⟨r, hj⟩
    · exact ⟨[("error", Json.str msg)], by rw [← hs, hj], Or.inl ⟨msg, rfl⟩⟩
    · obtain ⟨kvs, hkvs, hnone⟩ := to_dict_pairs r
      exact ⟨kvs, by rw [← hs, hj, hkvs], Or.inr hnone⟩

/-- Witness for C1: a concrete failing run (missing credential) returns
a JSON object string of the required shape. -/
theorem check_weather_error_shape_witness :
    ∃ kvs : List (String × Json),
      "\x7b\"error\": \"OPENWEATHER_API_KEY environment variable not set\"\x7d" =
        dumps (Json.obj kvs) ∧
      ((∃ msg, kvs = [("error", Json.str msg)]) ∨
        jlookup (Json.obj kvs) "error" = none) :=
  check_weather_error_shape [] world0 "Paris" "metric"
    "\x7b\"error\": \"OPENWEATHER_API_KEY environment variable not set\"\x7d" rfl

/-- The mapper always stamps the response with the requested enum's
string value as unit. -/
lemma map_weather_unit (wd : Json) (p : WeatherParams) (r : WeatherResponse)
    (h : map_weather wd p = Except.ok r) : r.unit = p.unit.value := by
  unfold map_weather at h
  simp only [Bind.bind, Except.bind, Pure.pure, Except.pure] at h
  repeat' split at h
  all_goals first
    | exact Except.noConfusion h
    | (injection h with h1; rw [← h1])

/-- A successful fetch carries the requested enum's string value as
unit. -/
lemma get_weather_unit (k : String) (p : WeatherParams) (w : World)
    (r : WeatherResponse) (h : get_weather k p w = some (Except.ok r)) :
    r.unit = p.unit.value := by
  unfold get_weather at h
  split at h
  · exact Option.noConfusion h
  · exact Except.noConfusion (Option.some.inj h)
  · split at h
    · exact Except.noConfusion (Option.some.inj h)
    · split at h
      next r' heq =>
        have h3 : r' = r := by
          have h2 := Option.some.inj h
          injection h2
        rw [← h3]
        exact map_weather_unit _ _ _ heq
      next k' heq => exact Except.noConfusion (Option.some.inj h)
      next e heq => exact Except.noConfusion (Option.some.inj h)

/-- Claim C7 (amended): on every successful call the serialized
response's `unit` field equals the effective unit — the lower-cased
requested unit when that is `"imperial"`, and `"metric"` otherwise
(so it equals the lower-cased requested unit exactly when that
lower-casing is `"metric"` or `"imperial"`), regardless of what the
payload reports. -/
theorem unit_field_effective (env : List (String × String)) (w : World)
    (loc u k : String) (r : WeatherResponse)
    (hk : lookupApiKey env = some k) (hne : k ≠ "")
    (hg : get_weather k { location := loc, unit := parseUnit u } w = some (Except.ok r)) :
    check_weather env w loc u = some (dumps r.to_dict) ∧
    jlookup r.to_dict "unit" =
      some (Json.str (if strLower u = "imperial" then "imperial" else "metric")) := by
  constructor
  · simp [check_weather, check_weather_value, hk, hne, hg]
  · have hu : r.unit = (parseUnit u).value := get_weather_unit _ _ _ _ hg
    have hl : jlookup r.to_dict "unit" = some (Json.str r.unit) := rfl
    rw [hl, hu]
    by_cases hc : strLower u = "imperial" <;> simp [parseUnit, Unit.value, hc]

/-- Witness for C7 (amended): a concrete successful call with requested
unit `"METRIC"` serializes unit `"metric"`. -/
theorem unit_field_effective_witness :
    check_weather env0 world0 "Paris" "METRIC" = some (dumps resp0.to_dict) ∧
    jlookup resp0.to_dict "unit" =
      some (Json.str (if strLower "METRIC" = "imperial" then "imperial" else "metric")) :=
  unit_field_effective env0 world0 "Paris" "METRIC" "testkey" resp0 rfl
    (by decide) rfl

/-- Counterexample for C7 as stated: requesting unit `"kelvin"`
(lower-casing `"kelvin"`) on a successful call produces a serialized
`unit` field `"metric"`, which differs from the lower-cased requested
unit. -/
theorem unit_field_cex :
    (check_weather_value env0 world0 "Paris" "kelvin").bind (fun j => jlookup j "unit") =
      some (Json.str "metric") ∧
    strLower "kelvin" = "kelvin" ∧
    Json.str "metric" ≠ Json.str "kelvin" :=
  ⟨rfl, rfl, fun h => by injection h with h2; exact absurd h2 (by decide)⟩

/-- The response `map_weather` builds from `payload0` for arbitrary
params. -/
def respC6 (p : WeatherParams) : WeatherResponse :=
  { location := Json.str "", temperature := Json.num 21,
    feels_like_temperature := Json.num (41/2), wind_speed := none,
    wind_degrees := none, humidity := none, unit := p.unit.value,
    weather_conditions := [] }

/-- Collecting descriptions never raises when every entry is an
object. -/
lemma collectDescriptions_ok (ws : List Json) (h : ∀ x ∈ ws, x.isObj = true) :
    ∃ ds, collectDescriptions ws = Except.ok ds := by
  induction ws with
  | nil => exact ⟨[], rfl⟩
  | cons w rest ih =>
    obtain ⟨ds, hds⟩ := ih (fun x hx => h x (List.mem_cons_of_mem _ hx))
    have hw := h w (List.mem_cons_self w rest)
    obtain ⟨o, rfl⟩ : ∃ o, w = Json.obj o := by
      cases w <;> simp [Json.isObj] at hw
      exact ⟨_, rfl⟩
    cases hb : o.any (fun kv => decide (kv.1 = "description")) with
    | false =>
      refine ⟨ds, ?_⟩
      simp [collectDescriptions, jsonContains, Bind.bind, Except.bind, hb, hds]
    | true =>
      refine ⟨((o.find? (fun kv => decide (kv.1 = "description"))).map
        (fun kv => kv.2)).getD (Json.str "") :: ds, ?_⟩
      simp [collectDescriptions, jsonContains, jget, Bind.bind, Except.bind,
        Pure.pure, Except.pure, hb, hds]

/-- The weather-conditions block never raises when the `"weather"` key
is absent or maps to an array of objects. -/
lemma weatherConditionsOf_ok (kvs : List (String × Json))
    (hW : jlookup (Json.obj kvs) "weather" = none ∨
      ∃ xs, jlookup (Json.obj kvs) "weather" = some (Json.arr xs) ∧
        ∀ x ∈ xs, x.isObj = true) :
    ∃ ds, weatherConditionsOf (Json.obj kvs) = Except.ok ds := by
  rcases hW with hWn | ⟨xs, hWs, hobj⟩
  · have hf : kvs.find? (fun kv => decide (kv.1 = "weather")) = none := by
      simpa [jlookup, Option.map_eq_none'] using hWn
    have hany : kvs.any (fun kv => decide (kv.1 = "weather")) = false := by
      cases hany : kvs.any (fun kv => decide (kv.1 = "weather"))
      · rfl
      · obtain ⟨x, hx, hpx⟩ := List.any_eq_true.mp hany
        exact absurd hpx (List.find?_eq_none.mp hf x hx)
    refine ⟨[], ?_⟩
    simp [weatherConditionsOf, jsonContains, Bind.bind, Except.bind,
      Pure.pure, Except.pure, hany]
  · obtain ⟨kv, hfind, hsnd⟩ :
        ∃ kv, kvs.find? (fun kv => decide (kv.1 = "weather")) = some kv ∧
          kv.2 = Json.arr xs :=
      Option.map_eq_some'.mp (by simpa [jlookup] using hWs)
    have hmem := List.mem_of_find?_eq_some hfind
    have hp := List.find?_some hfind
    have hany : kvs.any (fun kv => decide (kv.1 = "weather")) = true :=
      List.any_eq_true.mpr ⟨kv, hmem, hp⟩
    obtain ⟨ds, hds⟩ := collectDescriptions_ok xs hobj
    refine ⟨ds, ?_⟩
    simp [weatherConditionsOf, jsonContains, jsub, Bind.bind, Except.bind,
      hany, hfind, hsnd, jsonIter, hds]

/-- An error from subscripting `"main"` propagates out of the mapper
once the conditions block succeeded. -/
lemma map_weather_main_error (kvs : List (String × Json)) (p : WeatherParams)
    (e : Exc) (ds : List Json)
    (hcond : weatherConditionsOf (Json.obj kvs) = Except.ok ds)
    (hmain : jsub (Json.obj kvs) "main" = Except.error e) :
    map_weather (Json.obj kvs) p = Except.error e := by
  simp [map_weather, Bind.bind, Except.bind, hcond, jget, hmain]

/-- An error from subscripting `"temp"` under an object-valued `"main"`
propagates out of the mapper once the conditions block succeeded. -/
lemma map_weather_temp_error (kvs mkvs : List (String × Json)) (p : WeatherParams)
    (e : Exc) (ds : List Json)
    (hcond : weatherConditionsOf (Json.obj kvs) = Except.ok ds)
    (hmain : jsub (Json.obj kvs) "main" = Except.ok (Json.obj mkvs))
    (htemp : jsub (Json.obj mkvs) "temp" = Except.error e) :
    map_weather (Json.obj kvs) p = Except.error e := by
  simp [map_weather, Bind.bind, Except.bind, hcond, jget, hmain, htemp]

/-- Claim C6 (amended): the payload with only `main.temp` and
`main.feels_like` maps to a response whose serialization carries no
`wind_speed`, `wind_degrees` or `humidity` key and an empty
`weather_conditions` array; and for every object payload whose
`"weather"` entry, when present, is an array of objects, a payload whose
`"main"` key is absent fails with the missing-field `KeyError` naming
`"main"`, and one whose `"main"` is an object lacking `"temp"` fails
with the missing-field `KeyError` naming `"temp"`.  (A payload whose
`"main"` is present but not an object fails with a generic type error
instead — see the counterexample.) -/
theorem mapper_fields (p : WeatherParams) (kvs : List (String × Json))
    (hW : jlookup (Json.obj kvs) "weather" = none ∨
      ∃ xs, jlookup (Json.obj kvs) "weather" = some (Json.arr xs) ∧
        ∀ x ∈ xs, x.isObj = true) :
    (map_weather payload0 p = Except.ok (respC6 p) ∧
      (respC6 p).to_dict = Json.obj
        [("location", Json.str ""), ("temperature", Json.num 21),
         ("feels_like_temperature", Json.num (41/2)),
         ("unit", Json.str p.unit.value), ("weather_conditions", Json.arr [])] ∧
      jlookup (respC6 p).to_dict "wind_speed" = none ∧
      jlookup (respC6 p).to_dict "wind_degrees" = none ∧
      jlookup (respC6 p).to_dict "humidity" = none) ∧
    (jlookup (Json.obj kvs) "main" = none →
      map_weather (Json.obj kvs) p = Except.error (Exc.keyError "main")) ∧
    (∀ m, jlookup (Json.obj kvs) "main" = some (Json.obj m) →
      jlookup (Json.obj m) "temp" = none →
      map_weather (Json.obj kvs) p = Except.error (Exc.keyError "temp")) := by
  obtain ⟨ds, hds⟩ := weatherConditionsOf_ok kvs hW
  refine ⟨⟨rfl, rfl, rfl, rfl, rfl⟩, ?_, ?_⟩
  · intro hmain
    have hf : kvs.find? (fun kv => decide (kv.1 = "main")) = none := by
      simpa [jlookup, Option.map_eq_none'] using hmain
    exact map_weather_main_error kvs p _ ds hds (by simp [jsub, hf])
  · intro m hm htemp
    obtain ⟨kv, hfind, hsnd⟩ :
        ∃ kv, kvs.find? (fun kv => decide (kv.1 = "main")) = some kv ∧
          kv.2 = Json.obj m :=
      Option.map_eq_some'.mp (by simpa [jlookup] using hm)
    have hft : m.find? (fun kv => decide (kv.1 = "temp")) = none := by
      simpa [jlookup, Option.map_eq_none'] using htemp
    exact map_weather_temp_error kvs m p _ ds hds
      (by simp [jsub, hfind, hsnd]) (by simp [jsub, hft])

/-- Does a mapping failure present as a Python `KeyError` — the only
failure `get_weather` reports as a missing field? -/
def isMissingFieldError : Except Exc WeatherResponse → Bool
  | .error (.keyError _) => true
  | _ => false

/-- Counterexample for C6 as stated: two payloads missing `main.temp`
whose failure is a generic type error, not a missing-field error — one
whose `"main"` is a number, one whose `"weather"` is a number. -/
theorem mapper_fields_cex :
    map_weather (Json.obj [("main", Json.num 3)])
        { location := "L", unit := Unit.metric } =
      Except.error (Exc.generic "object is not subscriptable") ∧
    isMissingFieldError
      (map_weather (Json.obj [("main", Json.num 3)])
        { location := "L", unit := Unit.metric }) = false ∧
    map_weather (Json.obj [("weather", Json.num 5), ("main", Json.obj [])])
        { location := "L", unit := Unit.metric } =
      Except.error (Exc.generic "object is not iterable") ∧
    isMissingFieldError
      (map_weather (Json.obj [("weather", Json.num 5), ("main", Json.obj [])])
        { location := "L", unit := Unit.metric }) = false :=
  ⟨rfl, rfl, rfl, rfl⟩

/-- Witness for C6 (amended): the concrete optional-fields payload maps
as claimed, and the payload whose `"main"` object lacks `"temp"` fails
with the `KeyError` naming `"temp"`. -/
theorem mapper_fields_witness :
    (map_weather payload0 { location := "L", unit := Unit.metric } =
      Except.ok (respC6 { location := "L", unit := Unit.metric }) ∧
      (respC6 { location := "L", unit := Unit.metric }).to_dict = Json.obj
        [("location", Json.str ""), ("temperature", Json.num 21),
         ("feels_like_temperature", Json.num (41/2)),
         ("unit", Json.str (WeatherParams.mk "L" Unit.metric).unit.value),
         ("weather_conditions", Json.arr [])] ∧
      jlookup (respC6 { location := "L", unit := Unit.metric }).to_dict "wind_speed" = none ∧
      jlookup (respC6 { location := "L", unit := Unit.metric }).to_dict "wind_degrees" = none ∧
      jlookup (respC6 { location := "L", unit := Unit.metric }).to_dict "humidity" = none) ∧
    (jlookup (Json.obj [("main", Json.obj [("feels_like", Json.num 1)])]) "main" = none →
      map_weather (Json.obj [("main", Json.obj [("feels_like", Json.num 1)])])
        { location := "L", unit := Unit.metric } = Except.error (Exc.keyError "main")) ∧
    (∀ m, jlookup (Json.obj [("main", Json.obj [("feels_like", Json.num 1)])]) "main" =
        some (Json.obj m) →
      jlookup (Json.obj m) "temp" = none →
      map_weather (Json.obj [("main", Json.obj [("feels_like", Json.num 1)])])
        { location := "L", unit := Unit.metric } = Except.error (Exc.keyError "temp")) :=
  mapper_fields { location := "L", unit := Unit.metric }
    [("main", Json.obj [("feels_like", Json.num 1)])] (Or.inl rfl)

end Weather
